import Mathlib

/-!
Shallow embedding of `bofire/models/diagnostics.py`: the `CvResult` /
`CvResults` containers for cross-validation diagnostics, their pydantic
validators, the metric dispatch table, fold combination and batch metric
computation.

Modelling choices:
* A pandas `Series` is a `List Val`, where `Val` is either a numeric value
  (a rational, standing for the reals actually used) or a non-numeric
  payload (a string).  This keeps the `is_numeric` checks meaningful.
* A pandas `DataFrame` is a list of named columns together with a list of
  rows.
* The external statistical primitives (sklearn's error metrics, scipy's
  correlations and `fisher_exact`) are NOT reimplemented, matching the
  module which only wraps them: they are abstract parameters collected in
  a `StatPrimitives` record.  The wrappers and the contingency-table
  construction for the Fisher test are embedded from the source.
* Exceptions raised by the pydantic validators and by `get_metric` become
  `Except CvError` results.
-/

deriving instance DecidableEq for Except

namespace Bofire

/-- An element of a pandas Series: either a numeric value or a
non-numeric (string) payload. -/
inductive Val where
  | num (q : ℚ)
  | text (s : String)
deriving DecidableEq

/-- Whether a single series element is numeric. -/
def Val.isNum : Val → Bool
  | .num _ => true
  | .text _ => false

/-- Numeric content of an element (0 for non-numeric ones; only applied
after validation has established numericity). -/
def Val.toQ : Val → ℚ
  | .num q => q
  | .text _ => 0

/-- Modelled from the spec: `is_numeric` from `bofire.domain.util` is not
part of the sources; per the spec every element must be convertible to a
real number, so a series is numeric iff all its elements are. -/
def is_numeric (vs : List Val) : Bool := vs.all Val.isNum

/-- The numeric values of a series, as numpy's `.values` exposes them. -/
def seriesValues (vs : List Val) : List ℚ := vs.map Val.toQ

/-- Modelled from the spec: `RegressionMetricsEnum` from
`bofire.utils.enum` is not part of the sources; the spec fixes the closed
identifier set {MAE, MSD, R2, MAPE, PEARSON, SPEARMAN, FISHER}. -/
inductive RegressionMetricsEnum where
  | MAE | MSD | R2 | MAPE | PEARSON | SPEARMAN | FISHER
deriving DecidableEq

/-- The `.name` attribute of an enum member. -/
def RegressionMetricsEnum.name : RegressionMetricsEnum → String
  | .MAE => "MAE"
  | .MSD => "MSD"
  | .R2 => "R2"
  | .MAPE => "MAPE"
  | .PEARSON => "PEARSON"
  | .SPEARMAN => "SPEARMAN"
  | .FISHER => "FISHER"

/-- A pandas DataFrame: named columns and a list of rows. -/
structure DataFrame where
  columns : List String
  rows : List (List Val)
deriving DecidableEq

/-- Errors raised by the module (all `ValueError`s in the source),
classified as in the spec's error taxonomy. -/
inductive CvError where
  | ShapeMismatch (field : String) (lenPredicted lenField : Nat)
  | NotNumeric (field : String)
  | EmptyCollection
  | KeyMismatch
  | FieldPresenceMismatch (field : String)
  | ColumnMismatch
  | InsufficientSamples
deriving DecidableEq

/-- The container of one CV fold (`CvResult`).  Fields are stored as
given; validation happens in the constructor `CvResult.make`. -/
structure CvResult where
  key : String
  observed : List Val
  predicted : List Val
  standard_deviation : Option (List Val)
  labcodes : Option (List Val)
  X : Option DataFrame
deriving DecidableEq

instance : Inhabited CvResult := ⟨⟨"", [], [], none, none, none⟩⟩

/-- The validating constructor of `CvResult`, embedding the pydantic
flow: the `pre=True` root validator `validate_shapes` runs first (checks
in source order: predicted vs observed, then standard_deviation, labcodes
and X against predicted), then the field validators `validate_observed`,
`validate_predicted`, `validate_standard_deviation` in field order. -/
def CvResult.make (key : String) (observed predicted : List Val)
    (standard_deviation labcodes : Option (List Val)) (X : Option DataFrame) :
    Except CvError CvResult :=
  if predicted.length ≠ observed.length then
    .error (.ShapeMismatch "observed" predicted.length observed.length)
  else if standard_deviation.any (fun s => predicted.length ≠ s.length) then
    .error (.ShapeMismatch "standard_deviation" predicted.length
      ((standard_deviation.getD []).length))
  else if labcodes.any (fun s => predicted.length ≠ s.length) then
    .error (.ShapeMismatch "labcodes" predicted.length ((labcodes.getD []).length))
  else if X.any (fun df => predicted.length ≠ df.rows.length) then
    .error (.ShapeMismatch "X" predicted.length ((X.getD ⟨[], []⟩).rows.length))
  else if ¬ is_numeric observed then .error (.NotNumeric "observed")
  else if ¬ is_numeric predicted then .error (.NotNumeric "predicted")
  else if standard_deviation.any (fun s => ! is_numeric s) then
    .error (.NotNumeric "standard_deviation")
  else .ok ⟨key, observed, predicted, standard_deviation, labcodes, X⟩

/-- `CvResult.n_samples`: the number of samples in the fold. -/
def CvResult.n_samples (cv : CvResult) : Nat := cv.observed.length

/-- The external statistical primitives the module delegates to (sklearn
metrics, scipy correlations and the exact test for association); they are
consumed through their contracts, not reimplemented.
`fisher_exact_greater` stands for `scipy.stats.fisher_exact` applied with
the one-sided alternative "greater" to the table [[tp, fp], [fn, tn]],
returning the p-value. -/
structure StatPrimitives where
  mean_absolute_error : List ℚ → List ℚ → ℚ
  mean_squared_error : List ℚ → List ℚ → ℚ
  mean_absolute_percentage_error : List ℚ → List ℚ → ℚ
  r2_score : List ℚ → List ℚ → ℚ
  pearsonr : List ℚ → List ℚ → ℚ
  spearmanr : List ℚ → List ℚ → ℚ
  fisher_exact_greater : (Nat × Nat) → (Nat × Nat) → ℚ

/-- Wrapper `_mean_absolute_error`: forwards observed and predicted to the
library, ignoring `standard_deviation`. -/
def _mean_absolute_error (P : StatPrimitives) (observed predicted : List ℚ)
    (standard_deviation : Option (List Val)) : ℚ :=
  P.mean_absolute_error observed predicted

/-- Wrapper `_mean_squared_error`: ignores `standard_deviation`. -/
def _mean_squared_error (P : StatPrimitives) (observed predicted : List ℚ)
    (standard_deviation : Option (List Val)) : ℚ :=
  P.mean_squared_error observed predicted

/-- Wrapper `_mean_absolute_percentage_error`: ignores `standard_deviation`. -/
def _mean_absolute_percentage_error (P : StatPrimitives) (observed predicted : List ℚ)
    (standard_deviation : Option (List Val)) : ℚ :=
  P.mean_absolute_percentage_error observed predicted

/-- Wrapper `_r2_score`: ignores `standard_deviation`. -/
def _r2_score (P : StatPrimitives) (observed predicted : List ℚ)
    (standard_deviation : Option (List Val)) : ℚ :=
  P.r2_score observed predicted

/-- Wrapper `_pearson`: calls the library with predicted first, observed
second (as the source does), ignoring `standard_deviation`. -/
def _pearson (P : StatPrimitives) (observed predicted : List ℚ)
    (standard_deviation : Option (List Val)) : ℚ :=
  P.pearsonr predicted observed

/-- Wrapper `_spearman`: predicted first, observed second; ignores
`standard_deviation`. -/
def _spearman (P : StatPrimitives) (observed predicted : List ℚ)
    (standard_deviation : Option (List Val)) : ℚ :=
  P.spearmanr predicted observed

/-- Stable insertion of an index into an index list sorted ascending by
the value function: the new index is placed before the first index whose
value is ≥ its own. -/
def argInsert (val : Nat → ℚ) (i : Nat) : List Nat → List Nat
  | [] => [i]
  | j :: js => if val i ≤ val j then i :: j :: js else j :: argInsert val i js

/-- Model of `np.ndarray.argsort` on a 1-d array: the indices
0, ..., n-1 sorted ascending by their value (a stable order among ties;
numpy's default sort leaves tie order unspecified, as does the spec). -/
def argsort (xs : List ℚ) : List Nat :=
  (List.range xs.length).foldr (fun i acc => argInsert (fun k => xs.getD k 0) i acc) []

/-- Python tail slice `l[-n:]`: the last `n` elements, except that `n = 0`
yields the whole list (`l[-0:]` is `l[0:]`). -/
def pyTail (n : Nat) (xs : List Nat) : List Nat :=
  if n = 0 then xs else xs.drop (xs.length - n)

/-- The rank-discrimination test `_fisher_exact_test_p`: contingency table
from the overlap of the top half of observed and predicted (by argsort
tail), handed to the external one-sided exact test. -/
def _fisher_exact_test_p (P : StatPrimitives) (observed predicted : List ℚ)
    (standard_deviation : Option (List Val)) : ℚ :=
  let n_half := observed.length / 2
  let top_obs := pyTail n_half (argsort observed)
  let top_est := pyTail n_half (argsort predicted)
  let tp := (top_est.toFinset ∩ top_obs.toFinset).card
  let fp := n_half - tp
  let fn := n_half - tp
  let tn := (observed.length - n_half) - (n_half - tp)
  P.fisher_exact_greater (tp, fp) (fn, tn)

/-- The metric registry `metrics`, dispatching an enum member to its
wrapper. -/
def metrics (P : StatPrimitives) : RegressionMetricsEnum →
    (List ℚ → List ℚ → Option (List Val) → ℚ)
  | .MAE => _mean_absolute_error P
  | .MSD => _mean_squared_error P
  | .R2 => _r2_score P
  | .MAPE => _mean_absolute_percentage_error P
  | .PEARSON => _pearson P
  | .SPEARMAN => _spearman P
  | .FISHER => _fisher_exact_test_p P

/-- `CvResult.get_metric`: refuses exactly one sample, otherwise invokes
the registered metric function on the numeric values of observed and
predicted, passing the raw `standard_deviation` through. -/
def CvResult.get_metric (cv : CvResult) (P : StatPrimitives)
    (metric : RegressionMetricsEnum) : Except CvError ℚ :=
  if cv.n_samples = 1 then .error .InsufficientSamples
  else .ok (metrics P metric (seriesValues cv.observed) (seriesValues cv.predicted)
    cv.standard_deviation)

/-- Lexicographic comparison of character lists, the order Python's
`sorted` uses on strings (written out so that it evaluates by kernel
reduction). -/
def charListLE : List Char → List Char → Bool
  | [], _ => true
  | _ :: _, [] => false
  | a :: as, b :: bs => if a < b then true else if b < a then false else charListLE as bs

/-- Lexicographic comparison of strings via their character lists. -/
def strLE (a b : String) : Bool := charListLE a.data b.data

/-- Python's `sorted` on a list of strings: a stable sort by the
lexicographic order. -/
def sortStr (l : List String) : List String :=
  List.insertionSort (fun a b => strLE a b = true) l

/-- One CV fold collection (`CvResults`). -/
structure CvResults where
  results : List CvResult
deriving DecidableEq

/-- The `results` validator of `CvResults`, in source order: at least two
folds, matching keys, consistent presence of each optional field
(standard_deviation, labcodes, X in that order), and, when X is present,
equal sorted column-name lists. -/
def CvResults.validate_results (v : List CvResult) : Except CvError (List CvResult) :=
  if v.length ≤ 1 then .error .EmptyCollection
  else if v.any (fun i => i.key ≠ v.headI.key) then .error .KeyMismatch
  else if v.any (fun i => i.standard_deviation.isSome ≠ v.headI.standard_deviation.isSome) then
    .error (.FieldPresenceMismatch "standard_deviation")
  else if v.any (fun i => i.labcodes.isSome ≠ v.headI.labcodes.isSome) then
    .error (.FieldPresenceMismatch "labcodes")
  else if v.any (fun i => i.X.isSome ≠ v.headI.X.isSome) then
    .error (.FieldPresenceMismatch "X")
  else
    match v.headI.X with
    | none => .ok v
    | some X0 =>
      if v.any (fun i => sortStr ((i.X.getD ⟨[], []⟩).columns) ≠ sortStr X0.columns) then
        .error .ColumnMismatch
      else .ok v

/-- The validating constructor of `CvResults`. -/
def CvResults.make (results : List CvResult) : Except CvError CvResults :=
  (CvResults.validate_results results).map CvResults.mk

/-- `CvResults.key`: the shared key, read off the first fold. -/
def CvResults.key (c : CvResults) : String := c.results.headI.key

/-- `CvResults.is_loo`: whether every fold holds exactly one sample. -/
def CvResults.is_loo (c : CvResults) : Bool :=
  c.results.all (fun r => r.n_samples = 1)

/-- A row of a concatenated DataFrame: pandas aligns each frame's row to
the target column order by column name (the default value is never used
for the validated, equal-column-set frames the module concatenates). -/
def alignRow (target cols : List String) (row : List Val) : List Val :=
  target.map (fun c => ((cols.zip row).lookup c).getD (Val.num 0))

/-- `pd.concat` of DataFrames with `ignore_index=True`: the first frame's
column order, rows stacked in order, each row aligned by column name when
a frame's column order differs from the first frame's. -/
def pdConcatDF (dfs : List DataFrame) : DataFrame :=
  match dfs with
  | [] => ⟨[], []⟩
  | d0 :: _ =>
    ⟨d0.columns,
     (dfs.map (fun d =>
        if d.columns = d0.columns then d.rows
        else d.rows.map (alignRow d0.columns d.columns))).flatten⟩

/-- `CvResults._combine_folds`: concatenates observed, predicted and, when
the first fold carries them, standard_deviation, labcodes and X, with
fresh contiguous indices, and builds a new (re-validated) `CvResult` under
the first fold's key.  (On a validated collection the `getD` defaults are
never reached, and the collection is non-empty; Python would raise an
IndexError on an empty list.) -/
def CvResults._combine_folds (c : CvResults) : Except CvError CvResult :=
  match c.results with
  | [] => .error .EmptyCollection
  | r0 :: _ =>
    let observed := (c.results.map (fun cv => cv.observed)).flatten
    let predicted := (c.results.map (fun cv => cv.predicted)).flatten
    let sd := if r0.standard_deviation.isSome then
        some ((c.results.map (fun cv => cv.standard_deviation.getD [])).flatten)
      else none
    let labcodes := if r0.labcodes.isSome then
        some ((c.results.map (fun cv => cv.labcodes.getD [])).flatten)
      else none
    let X := if r0.X.isSome then
        some (pdConcatDF (c.results.map (fun cv => cv.X.getD ⟨[], []⟩)))
      else none
    CvResult.make r0.key observed predicted sd labcodes X

/-- A named pandas Series of metric values. -/
structure NamedSeries where
  values : List ℚ
  name : String
deriving DecidableEq

/-- `CvResults.get_metric`: on a LOO collection or when `combine_folds`
is requested, one value computed on the combined folds; otherwise one
value per fold in collection order.  The result carries the metric's
name. -/
def CvResults.get_metric (c : CvResults) (P : StatPrimitives)
    (metric : RegressionMetricsEnum) (combine_folds : Bool) :
    Except CvError NamedSeries :=
  if c.is_loo || combine_folds then
    match c._combine_folds with
    | .error e => .error e
    | .ok combined =>
      match combined.get_metric P metric with
      | .error e => .error e
      | .ok value => .ok ⟨[value], metric.name⟩
  else
    match c.results.mapM (fun cv => cv.get_metric P metric) with
    | .error e => .error e
    | .ok vs => .ok ⟨vs, metric.name⟩

/-- A concrete instantiation of the external primitives, used to evaluate
the embedding on concrete inputs. -/
def trivialPrims : StatPrimitives :=
  ⟨fun _ _ => 0, fun _ _ => 0, fun _ _ => 0, fun _ _ => 0,
   fun _ _ => 0, fun _ _ => 0, fun _ _ => 0⟩

/-- A fold is valid when re-running the validating constructor on its own
fields succeeds (this is exactly the state of any fold pydantic has
admitted). -/
def CvResult.Valid (cv : CvResult) : Prop :=
  CvResult.make cv.key cv.observed cv.predicted cv.standard_deviation cv.labcodes cv.X = .ok cv

instance (cv : CvResult) : Decidable cv.Valid := by
  unfold CvResult.Valid; infer_instance

set_option maxHeartbeats 1600000 in
/-- Characterization of the validating constructor of `CvResult`: success
is equivalent to all shape and numericity conditions, and the constructed
fold stores the inputs verbatim. -/
theorem CvResult.make_eq_ok {k : String} {o p : List Val} {sd lc : Option (List Val)}
    {X : Option DataFrame} {cv : CvResult} :
    CvResult.make k o p sd lc X = .ok cv ↔
      (p.length = o.length ∧ (∀ s ∈ sd, s.length = p.length) ∧
       (∀ s ∈ lc, s.length = p.length) ∧ (∀ df ∈ X, df.rows.length = p.length) ∧
       is_numeric o = true ∧ is_numeric p = true ∧ (∀ s ∈ sd, is_numeric s = true) ∧
       cv = ⟨k, o, p, sd, lc, X⟩) := by
  cases sd <;> cases lc <;> cases X <;>
    · simp only [CvResult.make, Option.any, Option.getD]
      split_ifs <;> simp_all <;> first
      | exact eq_comm
      | · intros
          omega

/-- A valid fold's success conditions, unfolded. -/
theorem CvResult.valid_iff {cv : CvResult} :
    cv.Valid ↔
      (cv.predicted.length = cv.observed.length ∧
       (∀ s ∈ cv.standard_deviation, s.length = cv.predicted.length) ∧
       (∀ s ∈ cv.labcodes, s.length = cv.predicted.length) ∧
       (∀ df ∈ cv.X, df.rows.length = cv.predicted.length) ∧
       is_numeric cv.observed = true ∧ is_numeric cv.predicted = true ∧
       (∀ s ∈ cv.standard_deviation, is_numeric s = true)) := by
  unfold CvResult.Valid
  rw [CvResult.make_eq_ok]
  simp

/-- A fold obtained from the validating constructor is valid. -/
theorem CvResult.make_valid {k : String} {o p : List Val} {sd lc : Option (List Val)}
    {X : Option DataFrame} {cv : CvResult}
    (h : CvResult.make k o p sd lc X = .ok cv) : cv.Valid := by
  rcases CvResult.make_eq_ok.mp h with ⟨h1, h2, h3, h4, h5, h6, h7, rfl⟩
  exact CvResult.valid_iff.mpr ⟨h1, h2, h3, h4, h5, h6, h7⟩

theorem charListLE_total (as bs : List Char) :
    charListLE as bs = true ∨ charListLE bs as = true := by
  induction as generalizing bs with
  | nil => left; rfl
  | cons a as ih =>
    cases bs with
    | nil => right; rfl
    | cons b bs =>
      rcases lt_trichotomy a b with h | h | h
      · left; simp [charListLE, h]
      · subst h
        rcases ih bs with h' | h'
        · left; simp [charListLE, lt_irrefl, h']
        · right; simp [charListLE, lt_irrefl, h']
      · right; simp [charListLE, h]

theorem charListLE_trans {as bs cs : List Char} (h1 : charListLE as bs = true)
    (h2 : charListLE bs cs = true) : charListLE as cs = true := by
  induction as generalizing bs cs with
  | nil => rfl
  | cons a as ih =>
    cases bs with
    | nil => simp [charListLE] at h1
    | cons b bs =>
      cases cs with
      | nil => simp [charListLE] at h2
      | cons c cs =>
        rcases lt_trichotomy a b with hab | hab | hab
        · rcases lt_trichotomy b c with hbc | hbc | hbc
          · simp [charListLE, lt_trans hab hbc]
          · subst hbc; simp [charListLE, hab]
          · simp [charListLE, hbc, not_lt_of_lt hbc] at h2
        · subst hab
          rcases lt_trichotomy a c with hac | hac | hac
          · simp [charListLE, hac]
          · subst hac
            simp [charListLE, lt_irrefl] at h1 h2 ⊢
            exact ih h1 h2
          · simp [charListLE, lt_irrefl, not_lt_of_lt hac, hac] at h1 h2
        · simp [charListLE, hab, not_lt_of_lt hab] at h1

theorem charListLE_antisymm {as bs : List Char} (h1 : charListLE as bs = true)
    (h2 : charListLE bs as = true) : as = bs := by
  induction as generalizing bs with
  | nil =>
    cases bs with
    | nil => rfl
    | cons b bs => simp [charListLE] at h2
  | cons a as ih =>
    cases bs with
    | nil => simp [charListLE] at h1
    | cons b bs =>
      rcases lt_trichotomy a b with hab | hab | hab
      · simp [charListLE, hab, not_lt_of_lt hab] at h2
      · subst hab
        simp [charListLE, lt_irrefl] at h1 h2
        rw [ih h1 h2]
      · simp [charListLE, hab, not_lt_of_lt hab] at h1

instance : IsTotal String (fun a b => strLE a b = true) :=
  ⟨fun a b => charListLE_total a.data b.data⟩

instance : IsTrans String (fun a b => strLE a b = true) :=
  ⟨fun _ _ _ h1 h2 => charListLE_trans h1 h2⟩

instance : IsAntisymm String (fun a b => strLE a b = true) := by
  constructor
  intro a b h1 h2
  have h : a.data = b.data := charListLE_antisymm h1 h2
  cases a
  cases b
  exact congrArg String.mk h

/-- Python's sorted-list comparison of column names is exactly the
order-insensitive (multiset) comparison: two string lists sort equal iff
they are permutations of each other. -/
theorem sortStr_eq_iff_perm (a b : List String) :
    sortStr a = sortStr b ↔ a.Perm b := by
  constructor
  · intro h
    have ha : a.Perm (sortStr a) := (List.perm_insertionSort _ a).symm
    have hb : (sortStr b).Perm b := List.perm_insertionSort _ b
    exact ha.trans (h ▸ hb)
  · intro h
    have hab : (sortStr a).Perm (sortStr b) :=
      ((List.perm_insertionSort _ a).trans h).trans (List.perm_insertionSort _ b).symm
    exact List.eq_of_perm_of_sorted hab
      (List.sorted_insertionSort _ a) (List.sorted_insertionSort _ b)

/-- Numericity distributes over concatenation. -/
theorem is_numeric_flatten (ls : List (List Val)) :
    is_numeric ls.flatten = ls.all is_numeric := by
  induction ls with
  | nil => rfl
  | cons l ls ih =>
    simp only [List.flatten_cons, is_numeric, List.all_append, List.all_cons] at ih ⊢
    rw [ih]

/-- What holds of a fold list accepted by the `results` validator. -/
theorem CvResults.validate_results_ok {v w : List CvResult}
    (h : CvResults.validate_results v = .ok w) :
    w = v ∧ 2 ≤ v.length ∧ (∀ r ∈ v, r.key = v.headI.key) ∧
    (∀ r ∈ v, r.standard_deviation.isSome = v.headI.standard_deviation.isSome) ∧
    (∀ r ∈ v, r.labcodes.isSome = v.headI.labcodes.isSome) ∧
    (∀ r ∈ v, r.X.isSome = v.headI.X.isSome) ∧
    (∀ X0 ∈ v.headI.X, ∀ r ∈ v, ∀ Xr ∈ r.X, sortStr Xr.columns = sortStr X0.columns) := by
  rw [CvResults.validate_results] at h
  split_ifs at h with h1 h2 h3 h4 h5 <;> try exact Except.noConfusion h
  have hlen : 2 ≤ v.length := by omega
  simp only [List.any_eq_true, decide_eq_true_eq, not_exists, not_and, not_not] at h2 h3 h4 h5
  refine ⟨?_, hlen, fun r hr => by simpa using h2 r hr,
    fun r hr => by simpa using h3 r hr,
    fun r hr => by simpa using h4 r hr,
    fun r hr => by simpa using h5 r hr, ?_⟩
  · rcases hX : v.headI.X with _ | X0 <;> rw [hX] at h
    · exact (Except.ok.inj h).symm
    · dsimp only at h
      split_ifs at h with h6
      exact (Except.ok.inj h).symm
  · intro X0 hX0 r hr Xr hXr
    rw [hX0] at h
    dsimp only at h
    split_ifs at h with h6
    simp only [List.any_eq_true, decide_eq_true_eq, not_exists, not_and, not_not] at h6
    have := h6 r hr
    rwa [hXr] at this

/-- Concatenations of columns that agree in length elementwise have equal
lengths. -/
theorem flatten_map_length_congr {α : Type} (l : List α) (f g : α → List Val)
    (h : ∀ r ∈ l, (f r).length = (g r).length) :
    ((l.map f).flatten).length = ((l.map g).flatten).length := by
  simp only [List.length_flatten, List.map_map]
  exact congrArg List.sum (List.map_congr_left (by simpa using h))

/-- The row count of a pandas concat is the sum of the frames' row
counts. -/
theorem pdConcatDF_rows_length (dfs : List DataFrame) :
    (pdConcatDF dfs).rows.length = (dfs.map (fun d => d.rows.length)).sum := by
  cases dfs with
  | nil => rfl
  | cons d0 rest =>
    simp only [pdConcatDF, List.length_flatten, List.map_map]
    congr 1
    apply List.map_congr_left
    intro d _
    simp only [Function.comp_apply]
    split_ifs <;> simp

/-- When every frame shares the same column list, pandas concat is the
plain concatenation of the frames' rows. -/
theorem pdConcatDF_rows_uniform (dfs : List DataFrame)
    (h : ∀ d1 ∈ dfs, ∀ d2 ∈ dfs, d1.columns = d2.columns) :
    (pdConcatDF dfs).rows = (dfs.map (fun d => d.rows)).flatten := by
  cases dfs with
  | nil => rfl
  | cons d0 ds =>
    simp only [pdConcatDF]
    congr 1
    apply List.map_congr_left
    intro d hd
    rw [if_pos (h d hd d0 (List.mem_cons_self _ _))]

/-- On a validated collection of valid folds, `_combine_folds` succeeds
and returns exactly the concatenation of every per-fold field (optional
fields according to their presence on the first fold, which validation
makes representative). -/
theorem CvResults.combine_folds_ok (c : CvResults)
    (hval : CvResults.validate_results c.results = .ok c.results)
    (hwf : ∀ r ∈ c.results, r.Valid) :
    c._combine_folds = .ok
      ⟨c.key,
       (c.results.map (fun cv => cv.observed)).flatten,
       (c.results.map (fun cv => cv.predicted)).flatten,
       if c.results.headI.standard_deviation.isSome then
         some ((c.results.map (fun cv => cv.standard_deviation.getD [])).flatten)
       else none,
       if c.results.headI.labcodes.isSome then
         some ((c.results.map (fun cv => cv.labcodes.getD [])).flatten)
       else none,
       if c.results.headI.X.isSome then
         some (pdConcatDF (c.results.map (fun cv => cv.X.getD ⟨[], []⟩)))
       else none⟩ := by
  obtain ⟨-, hlen, hkeys, hsdP, hlcP, hXP, -⟩ := CvResults.validate_results_ok hval
  have hvalid : ∀ r ∈ c.results, r.predicted.length = r.observed.length ∧
      (∀ s ∈ r.standard_deviation, s.length = r.predicted.length) ∧
      (∀ s ∈ r.labcodes, s.length = r.predicted.length) ∧
      (∀ df ∈ r.X, df.rows.length = r.predicted.length) ∧
      is_numeric r.observed = true ∧ is_numeric r.predicted = true ∧
      (∀ s ∈ r.standard_deviation, is_numeric s = true) :=
    fun r hr => CvResult.valid_iff.mp (hwf r hr)
  unfold CvResults._combine_folds CvResults.key
  rcases hres : c.results with _ | ⟨r0, rest⟩
  · rw [hres] at hlen; simp at hlen
  rw [hres] at hvalid hsdP hlcP hXP
  simp only [List.headI] at hsdP hlcP hXP ⊢
  rw [CvResult.make_eq_ok]
  have hflatlen : (((r0 :: rest).map (fun cv => cv.predicted)).flatten).length =
      (((r0 :: rest).map (fun cv => cv.observed)).flatten).length :=
    flatten_map_length_congr _ _ _ (fun r hr => by rw [(hvalid r hr).1])
  refine ⟨hflatlen, ?_, ?_, ?_, ?_, ?_, ?_, ?_⟩
  · intro s hs
    split_ifs at hs with hP
    · cases hs
      apply flatten_map_length_congr
      intro r hr
      have hpr : r.standard_deviation.isSome = true := by rw [hsdP r hr, hP]
      rcases hsome : r.standard_deviation with _ | srd
      · rw [hsome] at hpr; cases hpr
      · have := (hvalid r hr).2.1 srd (by rw [hsome]; rfl)
        simpa [hsome] using this
    · cases hs
  · intro s hs
    split_ifs at hs with hP
    · cases hs
      apply flatten_map_length_congr
      intro r hr
      have hpr : r.labcodes.isSome = true := by rw [hlcP r hr, hP]
      rcases hsome : r.labcodes with _ | lcr
      · rw [hsome] at hpr; cases hpr
      · have := (hvalid r hr).2.2.1 lcr (by rw [hsome]; rfl)
        simpa [hsome] using this
    · cases hs
  · intro df hdf
    split_ifs at hdf with hP
    · cases hdf
      rw [pdConcatDF_rows_length, List.length_flatten]
      simp only [List.map_map]
      congr 1
      apply List.map_congr_left
      intro r hr
      simp only [Function.comp_apply]
      have hpr : r.X.isSome = true := by rw [hXP r hr, hP]
      rcases hsome : r.X with _ | Xr
      · rw [hsome] at hpr; cases hpr
      · have := (hvalid r hr).2.2.2.1 Xr (by rw [hsome]; rfl)
        simpa [hsome] using this
    · cases hdf
  · rw [is_numeric_flatten, List.all_eq_true]
    intro l hl
    rw [List.mem_map] at hl
    obtain ⟨r, hr, rfl⟩ := hl
    exact (hvalid r hr).2.2.2.2.1
  · rw [is_numeric_flatten, List.all_eq_true]
    intro l hl
    rw [List.mem_map] at hl
    obtain ⟨r, hr, rfl⟩ := hl
    exact (hvalid r hr).2.2.2.2.2.1
  · intro s hs
    split_ifs at hs with hP
    · cases hs
      rw [is_numeric_flatten, List.all_eq_true]
      intro l hl
      rw [List.mem_map] at hl
      obtain ⟨r, hr, rfl⟩ := hl
      have hpr : r.standard_deviation.isSome = true := by rw [hsdP r hr, hP]
      rcases hsome : r.standard_deviation with _ | srd
      · rw [hsome] at hpr; cases hpr
      · have := (hvalid r hr).2.2.2.2.2.2 srd (by rw [hsome]; rfl)
        simpa [hsome] using this
    · cases hs
  · rfl

/-- The registered metric functions never read their standard_deviation
argument. -/
theorem metrics_sd_irrel (P : StatPrimitives) (m : RegressionMetricsEnum)
    (o p : List ℚ) (sd sd' : Option (List Val)) :
    metrics P m o p sd = metrics P m o p sd' := by
  cases m <;> rfl

/-- C1 (counterexample): a zero-sample fold is successfully constructible,
has n_samples ≤ 1, and yet `get_metric` does not fail with
InsufficientSamples — the guard tests for exactly one sample, so the call
reaches the metric function. -/
theorem zero_sample_fold_escapes_guard :
    CvResult.make "y" [] [] none none none =
      .ok ⟨"y", [], [], none, none, none⟩ ∧
    (⟨"y", [], [], none, none, none⟩ : CvResult).n_samples ≤ 1 ∧
    (⟨"y", [], [], none, none, none⟩ : CvResult).get_metric trivialPrims .MAE ≠
      .error .InsufficientSamples := by
  refine ⟨rfl, by decide, by decide⟩

/-- C1 (amended): for every successfully constructed fold and every
registered metric, `get_metric` fails with InsufficientSamples exactly
when the fold has exactly one sample; for any other sample count it
returns the registered metric function applied to the stored observed,
predicted and standard_deviation. -/
theorem get_metric_guard_iff_single_sample (P : StatPrimitives)
    (k : String) (o p : List Val) (sd lc : Option (List Val)) (X : Option DataFrame)
    (cv : CvResult) (h : CvResult.make k o p sd lc X = .ok cv)
    (m : RegressionMetricsEnum) :
    (cv.n_samples = 1 → cv.get_metric P m = .error .InsufficientSamples) ∧
    (cv.n_samples ≠ 1 → cv.get_metric P m =
      .ok (metrics P m (seriesValues cv.observed) (seriesValues cv.predicted)
        cv.standard_deviation)) := by
  constructor <;> intro hn <;> simp [CvResult.get_metric, hn]

theorem get_metric_guard_iff_single_sample_witness :
    ((⟨"y", [Val.num 1], [Val.num 2], none, none, none⟩ : CvResult).get_metric
      trivialPrims .MAE = .error .InsufficientSamples) ∧
    ((⟨"y", [], [], none, none, none⟩ : CvResult).get_metric trivialPrims .MAE =
      .ok (metrics trivialPrims .MAE [] [] none)) := by
  constructor
  · exact (get_metric_guard_iff_single_sample trivialPrims "y" [Val.num 1] [Val.num 2]
      none none none ⟨"y", [Val.num 1], [Val.num 2], none, none, none⟩ (by decide) .MAE).1
      (by decide)
  · exact (get_metric_guard_iff_single_sample trivialPrims "y" [] []
      none none none ⟨"y", [], [], none, none, none⟩ (by decide) .MAE).2 (by decide)

/-- C7 (counterexample): construction with zero-length observed and
predicted succeeds, so the claimed invariant n_samples ≥ 1 does not hold
of every successfully constructed fold. -/
theorem empty_fold_constructs :
    CvResult.make "y" [] [] none none none =
      .ok ⟨"y", [], [], none, none, none⟩ ∧
    (⟨"y", [], [], none, none, none⟩ : CvResult).n_samples = 0 := by
  exact ⟨rfl, rfl⟩

/-- C7 (amended): every successfully constructed fold stores its inputs,
with n_samples equal to the (possibly zero) length of observed and
predicted of the same length; a length of at least 1 is not enforced. -/
theorem n_samples_eq_observed_length (k : String) (o p : List Val)
    (sd lc : Option (List Val)) (X : Option DataFrame) (cv : CvResult)
    (h : CvResult.make k o p sd lc X = .ok cv) :
    cv.n_samples = o.length ∧ cv.predicted.length = cv.n_samples := by
  rcases CvResult.make_eq_ok.mp h with ⟨h1, -, -, -, -, -, -, rfl⟩
  exact ⟨rfl, h1⟩

theorem n_samples_eq_observed_length_witness :
    (⟨"y", [Val.num 1, Val.num 2], [Val.num 3, Val.num 4], none, none, none⟩ :
      CvResult).n_samples = 2 :=
  (n_samples_eq_observed_length "y" [Val.num 1, Val.num 2] [Val.num 3, Val.num 4]
    none none none
    ⟨"y", [Val.num 1, Val.num 2], [Val.num 3, Val.num 4], none, none, none⟩
    (by decide)).1

/-- C8: on a validated collection, `is_loo` holds iff every constituent
fold has exactly one sample. -/
theorem is_loo_iff_all_single (c : CvResults)
    (h : CvResults.validate_results c.results = .ok c.results) :
    c.is_loo = true ↔ ∀ r ∈ c.results, r.n_samples = 1 := by
  simp [CvResults.is_loo, List.all_eq_true]

theorem is_loo_iff_all_single_witness :
    (CvResults.mk [⟨"y", [Val.num 1], [Val.num 2], none, none, none⟩,
      ⟨"y", [Val.num 3], [Val.num 4], none, none, none⟩]).is_loo = true :=
  (is_loo_iff_all_single
    (CvResults.mk [⟨"y", [Val.num 1], [Val.num 2], none, none, none⟩,
      ⟨"y", [Val.num 3], [Val.num 4], none, none, none⟩]) (by decide)).mpr (by decide)

/-- C9: for every registered metric and folds with more than one sample,
the metric value only depends on observed and predicted: folds agreeing
there (with arbitrary, possibly absent, standard_deviation) give the same
value. -/
theorem metric_ignores_standard_deviation (P : StatPrimitives)
    (m : RegressionMetricsEnum) (cv1 cv2 : CvResult)
    (hobs : cv1.observed = cv2.observed) (hpred : cv1.predicted = cv2.predicted)
    (hn : 1 < cv1.n_samples) :
    cv1.get_metric P m = cv2.get_metric P m := by
  have hns : cv2.n_samples = cv1.n_samples := by
    rw [CvResult.n_samples, CvResult.n_samples, hobs]
  have h1 : ¬ cv1.n_samples = 1 := by omega
  rw [CvResult.get_metric, CvResult.get_metric, hns, if_neg h1, if_neg h1,
    hobs, hpred]
  exact congrArg Except.ok (metrics_sd_irrel P m _ _ _ _)

theorem metric_ignores_standard_deviation_witness :
    (⟨"y", [Val.num 1, Val.num 2], [Val.num 3, Val.num 4],
      some [Val.num 5, Val.num 6], none, none⟩ : CvResult).get_metric
        trivialPrims .FISHER =
    (⟨"y", [Val.num 1, Val.num 2], [Val.num 3, Val.num 4],
      none, none, none⟩ : CvResult).get_metric trivialPrims .FISHER :=
  metric_ignores_standard_deviation trivialPrims .FISHER _ _ rfl rfl (by decide)

/-- C2: collection-level metric dispatch.  When the collection is LOO or
combination is requested, the result is the one-element sequence holding
the metric of the combined folds; when neither holds, it is the per-fold
metric sequence in fold order; a LOO collection silently overrides the
`combine_folds = false` flag.  All results are named by the metric. -/
theorem cvresults_get_metric_dispatch (P : StatPrimitives) (c : CvResults)
    (m : RegressionMetricsEnum) :
    (∀ cf : Bool, (c.is_loo || cf) = true →
      ∀ comb v, c._combine_folds = .ok comb → comb.get_metric P m = .ok v →
        c.get_metric P m cf = .ok ⟨[v], m.name⟩) ∧
    (c.is_loo = false →
      c.get_metric P m false =
        Except.map (fun vs : List ℚ => (⟨vs, m.name⟩ : NamedSeries))
          (c.results.mapM (fun cv : CvResult => cv.get_metric P m))) ∧
    (c.is_loo = true → ∀ cf, c.get_metric P m cf = c.get_metric P m true) := by
  refine ⟨?_, ?_, ?_⟩
  · intro cf hcf comb v hcomb hv
    rw [CvResults.get_metric, if_pos hcf, hcomb]
    dsimp only
    rw [hv]
  · intro hloo
    rw [CvResults.get_metric, hloo]
    cases hm : c.results.mapM (fun cv : CvResult => cv.get_metric P m) <;> rfl
  · intro hloo cf
    rw [CvResults.get_metric, CvResults.get_metric, hloo]
    simp only [Bool.true_or]

theorem cvresults_get_metric_dispatch_witness :
    ((CvResults.mk [⟨"y", [Val.num 1, Val.num 2], [Val.num 3, Val.num 4], none, none, none⟩,
        ⟨"y", [Val.num 5, Val.num 6], [Val.num 7, Val.num 8], none, none, none⟩]).get_metric
        trivialPrims .MAE true = .ok ⟨[0], "MAE"⟩) ∧
    ((CvResults.mk [⟨"y", [Val.num 1, Val.num 2], [Val.num 3, Val.num 4], none, none, none⟩,
        ⟨"y", [Val.num 5, Val.num 6], [Val.num 7, Val.num 8], none, none, none⟩]).get_metric
        trivialPrims .MAE false = .ok ⟨[0, 0], "MAE"⟩) ∧
    ((CvResults.mk [⟨"y", [Val.num 1], [Val.num 2], none, none, none⟩,
        ⟨"y", [Val.num 3], [Val.num 4], none, none, none⟩]).get_metric
        trivialPrims .MAE false =
      (CvResults.mk [⟨"y", [Val.num 1], [Val.num 2], none, none, none⟩,
        ⟨"y", [Val.num 3], [Val.num 4], none, none, none⟩]).get_metric
        trivialPrims .MAE true) := by
  refine ⟨?_, ?_, ?_⟩
  · exact (cvresults_get_metric_dispatch trivialPrims
      (CvResults.mk [⟨"y", [Val.num 1, Val.num 2], [Val.num 3, Val.num 4], none, none, none⟩,
        ⟨"y", [Val.num 5, Val.num 6], [Val.num 7, Val.num 8], none, none, none⟩]) .MAE).1
      true (by decide)
      ⟨"y", [Val.num 1, Val.num 2, Val.num 5, Val.num 6],
        [Val.num 3, Val.num 4, Val.num 7, Val.num 8], none, none, none⟩ 0
      (by decide) (by decide)
  · exact ((cvresults_get_metric_dispatch trivialPrims
      (CvResults.mk [⟨"y", [Val.num 1, Val.num 2], [Val.num 3, Val.num 4], none, none, none⟩,
        ⟨"y", [Val.num 5, Val.num 6], [Val.num 7, Val.num 8], none, none, none⟩]) .MAE).2.1
      (by decide)).trans (by decide)
  · exact (cvresults_get_metric_dispatch trivialPrims
      (CvResults.mk [⟨"y", [Val.num 1], [Val.num 2], none, none, none⟩,
        ⟨"y", [Val.num 3], [Val.num 4], none, none, none⟩]) .MAE).2.2 (by decide) false

/-- Python tail slicing coincides with plain dropping whenever the slice
size is positive. -/
theorem pyTail_eq_drop {n : Nat} (xs : List Nat) (h : n ≠ 0) :
    pyTail n xs = xs.drop (xs.length - n) := by
  rw [pyTail, if_neg h]

/-- Modelled from the spec: the FISHER metric's prescribed steps, worded
as in the spec — split at n_half = N // 2 (integer division), identify
the index sets of the top n_half observed and top n_half predicted values
(ties resolved by the stable ascending sort, which the spec leaves open),
form the 2x2 contingency table via tp = |top-predicted ∩ top-observed|,
fp = fn = n_half - tp, tn = (N - n_half) - (n_half - tp), and return the
p-value of the one-sided ("greater") exact test for association. -/
def fisherSpecSteps (P : StatPrimitives) (observed predicted : List ℚ) : ℚ :=
  let N := observed.length
  let n_half := N / 2
  let topObserved : Finset Nat :=
    ((argsort observed).drop ((argsort observed).length - n_half)).toFinset
  let topPredicted : Finset Nat :=
    ((argsort predicted).drop ((argsort predicted).length - n_half)).toFinset
  let tp := (topPredicted ∩ topObserved).card
  P.fisher_exact_greater (tp, n_half - tp) (n_half - tp, (N - n_half) - (n_half - tp))

/-- C3: on every constructed fold with more than one sample, the FISHER
metric computes exactly the spec's steps. -/
theorem fisher_metric_follows_spec_steps (P : StatPrimitives)
    (k : String) (o p : List Val) (sd lc : Option (List Val)) (X : Option DataFrame)
    (cv : CvResult) (h : CvResult.make k o p sd lc X = .ok cv)
    (hn : 1 < cv.n_samples) :
    cv.get_metric P .FISHER =
      .ok (fisherSpecSteps P (seriesValues cv.observed) (seriesValues cv.predicted)) := by
  have h1 : ¬ cv.n_samples = 1 := by omega
  rw [CvResult.get_metric, if_neg h1]
  have hlen : (seriesValues cv.observed).length = cv.n_samples := by
    simp [seriesValues, CvResult.n_samples]
  have hhalf : (seriesValues cv.observed).length / 2 ≠ 0 := by omega
  show Except.ok (_fisher_exact_test_p P (seriesValues cv.observed)
    (seriesValues cv.predicted) cv.standard_deviation) = _
  rw [_fisher_exact_test_p, fisherSpecSteps,
    pyTail_eq_drop _ hhalf, pyTail_eq_drop _ hhalf]

theorem fisher_metric_follows_spec_steps_witness :
    (⟨"y", [Val.num 1, Val.num 2], [Val.num 3, Val.num 4],
      none, none, none⟩ : CvResult).get_metric trivialPrims .FISHER =
    .ok (fisherSpecSteps trivialPrims [1, 2] [3, 4]) :=
  fisher_metric_follows_spec_steps trivialPrims "y"
    [Val.num 1, Val.num 2] [Val.num 3, Val.num 4] none none none
    ⟨"y", [Val.num 1, Val.num 2], [Val.num 3, Val.num 4], none, none, none⟩
    (by decide) (by decide)

/-- A list of length at least two destructures into a head and a tail. -/
theorem exists_cons_of_two_le {α : Type} {l : List α} (h : 2 ≤ l.length) :
    ∃ a t, l = a :: t := by
  cases l with
  | nil => simp at h
  | cons a t => exact ⟨a, t, rfl⟩

/-- C4: on a validated collection of valid folds, fold combination
succeeds and returns one fold under the shared key whose fields are the
concatenations, in collection order, of the folds' observed, predicted
and — when present on all folds — standard_deviation, labcodes and X:
the combined X is exactly the pandas concat of the folds' frames (the
first fold's columns; the folds' rows stacked in collection order with
intra-fold order preserved, which the final conjunct spells out as a
plain row concatenation whenever the folds share the column list), and
the combined sample count is the sum of the folds' sample counts. -/
theorem combine_folds_concatenates (c : CvResults)
    (hval : CvResults.validate_results c.results = .ok c.results)
    (hwf : ∀ r ∈ c.results, r.Valid) :
    ∃ comb, c._combine_folds = .ok comb ∧
      comb.key = c.key ∧
      comb.observed = (c.results.map (fun cv => cv.observed)).flatten ∧
      comb.predicted = (c.results.map (fun cv => cv.predicted)).flatten ∧
      comb.n_samples = (c.results.map (fun cv => cv.n_samples)).sum ∧
      ((∀ r ∈ c.results, r.standard_deviation.isSome = true) →
        comb.standard_deviation =
          some ((c.results.map (fun cv => cv.standard_deviation.getD [])).flatten)) ∧
      ((∀ r ∈ c.results, r.labcodes.isSome = true) →
        comb.labcodes =
          some ((c.results.map (fun cv => cv.labcodes.getD [])).flatten)) ∧
      ((∀ r ∈ c.results, r.X.isSome = true) →
        ∃ df, comb.X = some df ∧
          df = pdConcatDF (c.results.map (fun cv => cv.X.getD ⟨[], []⟩)) ∧
          df.columns = (c.results.headI.X.getD ⟨[], []⟩).columns ∧
          df.rows.length = (c.results.map (fun cv => cv.n_samples)).sum ∧
          ((∀ r ∈ c.results, ∀ Xr ∈ r.X, Xr.columns = df.columns) →
            df.rows =
              (c.results.map (fun cv => (cv.X.getD ⟨[], []⟩).rows)).flatten)) := by
  have hmain := CvResults.combine_folds_ok c hval hwf
  obtain ⟨-, hlen, -, -, -, -, -⟩ := CvResults.validate_results_ok hval
  obtain ⟨r0, rest, hres⟩ := exists_cons_of_two_le hlen
  have hmem0 : c.results.headI ∈ c.results := by
    rw [hres]; exact List.mem_cons_self _ _
  refine ⟨_, hmain, rfl, rfl, rfl, ?_, ?_, ?_, ?_⟩
  · show ((c.results.map (fun cv => cv.observed)).flatten).length = _
    simp [CvResult.n_samples, List.length_flatten, List.map_map, Function.comp_def]
  · intro hall
    have h0 : c.results.headI.standard_deviation.isSome = true := hall _ hmem0
    simp [h0]
  · intro hall
    have h0 : c.results.headI.labcodes.isSome = true := hall _ hmem0
    simp [h0]
  · intro hall
    have h0 : c.results.headI.X.isSome = true := hall _ hmem0
    refine ⟨pdConcatDF (c.results.map (fun cv => cv.X.getD ⟨[], []⟩)), ?_, rfl, ?_, ?_, ?_⟩
    · simp [h0]
    · rw [hres]
      simp [pdConcatDF, List.map_cons, List.headI]
    · rw [pdConcatDF_rows_length]
      simp only [List.map_map]
      congr 1
      apply List.map_congr_left
      intro r hr
      simp only [Function.comp_apply]
      have hXr : r.X.isSome = true := hall r hr
      rcases hsome : r.X with _ | Xr
      · rw [hsome] at hXr; cases hXr
      · obtain ⟨hplen, -, -, hXlen, -⟩ := CvResult.valid_iff.mp (hwf r hr)
        have := hXlen Xr (by rw [hsome]; rfl)
        simp only [hsome, Option.getD_some, CvResult.n_samples]
        omega
    · intro huni
      rw [pdConcatDF_rows_uniform]
      · simp [List.map_map, Function.comp_def]
      · intro d1 hd1 d2 hd2
        rw [List.mem_map] at hd1 hd2
        obtain ⟨r1, hr1, rfl⟩ := hd1
        obtain ⟨r2, hr2, rfl⟩ := hd2
        have h1 : r1.X.isSome = true := hall r1 hr1
        have h2 : r2.X.isSome = true := hall r2 hr2
        rcases hs1 : r1.X with _ | X1
        · rw [hs1] at h1; cases h1
        rcases hs2 : r2.X with _ | X2
        · rw [hs2] at h2; cases h2
        have e1 := huni r1 hr1 X1 (by rw [hs1]; rfl)
        have e2 := huni r2 hr2 X2 (by rw [hs2]; rfl)
        simp only [hs1, hs2, Option.getD_some]
        rw [e1, e2]

/-- A small concrete two-fold collection carrying labcodes and X,
sharing the column list, used to evaluate the combination results. -/
def sampleFoldA : CvResult :=
  ⟨"y", [Val.num 1, Val.num 2], [Val.num 3, Val.num 4], none,
   some [Val.text "r0", Val.text "r1"],
   some ⟨["a", "b"], [[Val.num 1, Val.num 2], [Val.num 3, Val.num 4]]⟩⟩

def sampleFoldB : CvResult :=
  ⟨"y", [Val.num 5, Val.num 6, Val.num 7], [Val.num 8, Val.num 9, Val.num 10], none,
   some [Val.text "r2", Val.text "r3", Val.text "r4"],
   some ⟨["a", "b"],
     [[Val.num 5, Val.num 6], [Val.num 7, Val.num 8], [Val.num 9, Val.num 10]]⟩⟩

def sampleCollection : CvResults := ⟨[sampleFoldA, sampleFoldB]⟩

theorem combine_folds_concatenates_witness :
    ∃ comb, sampleCollection._combine_folds = .ok comb ∧
      comb.key = sampleCollection.key ∧
      comb.observed = (sampleCollection.results.map (fun cv => cv.observed)).flatten ∧
      comb.predicted = (sampleCollection.results.map (fun cv => cv.predicted)).flatten ∧
      comb.n_samples = (sampleCollection.results.map (fun cv => cv.n_samples)).sum ∧
      ((∀ r ∈ sampleCollection.results, r.standard_deviation.isSome = true) →
        comb.standard_deviation =
          some ((sampleCollection.results.map
            (fun cv => cv.standard_deviation.getD [])).flatten)) ∧
      ((∀ r ∈ sampleCollection.results, r.labcodes.isSome = true) →
        comb.labcodes =
          some ((sampleCollection.results.map (fun cv => cv.labcodes.getD [])).flatten)) ∧
      ((∀ r ∈ sampleCollection.results, r.X.isSome = true) →
        ∃ df, comb.X = some df ∧
          df = pdConcatDF (sampleCollection.results.map (fun cv => cv.X.getD ⟨[], []⟩)) ∧
          df.columns = (sampleCollection.results.headI.X.getD ⟨[], []⟩).columns ∧
          df.rows.length = (sampleCollection.results.map (fun cv => cv.n_samples)).sum ∧
          ((∀ r ∈ sampleCollection.results, ∀ Xr ∈ r.X, Xr.columns = df.columns) →
            df.rows =
              (sampleCollection.results.map
                (fun cv => (cv.X.getD ⟨[], []⟩).rows)).flatten)) :=
  combine_folds_concatenates sampleCollection (by decide) (by decide)

/-- At least two folds with at least one sample each give at least two
combined samples. -/
theorem two_le_flatten_length {L : List (List Val)} (hL : 2 ≤ L.length)
    (h1 : ∀ l ∈ L, 1 ≤ l.length) : 2 ≤ L.flatten.length := by
  match L, hL with
  | a :: b :: rest, _ =>
    have ha := h1 a (by simp)
    have hb := h1 b (by simp)
    simp only [List.flatten_cons, List.length_append]
    omega

/-- C10: on a validated collection of valid folds, each with at least one
sample, a combined metric request (combine_folds = true, or any request
on a LOO collection) always succeeds: the combined fold has at least two
samples, so the single-sample guard cannot fire. -/
theorem combined_get_metric_total (P : StatPrimitives) (m : RegressionMetricsEnum)
    (c : CvResults) (hval : CvResults.validate_results c.results = .ok c.results)
    (hwf : ∀ r ∈ c.results, r.Valid) (hpos : ∀ r ∈ c.results, 1 ≤ r.n_samples)
    (cf : Bool) (hcf : cf = true ∨ c.is_loo = true) :
    (∃ s, c.get_metric P m cf = .ok s) ∧
    c.get_metric P m cf ≠ .error .InsufficientSamples := by
  have hmain := CvResults.combine_folds_ok c hval hwf
  obtain ⟨-, hlen, -, -, -, -, -⟩ := CvResults.validate_results_ok hval
  have h2 : 2 ≤ ((c.results.map (fun cv => cv.observed)).flatten).length := by
    apply two_le_flatten_length
    · simpa using hlen
    · intro l hl
      rw [List.mem_map] at hl
      obtain ⟨r, hr, rfl⟩ := hl
      exact hpos r hr
  have hcond : (c.is_loo || cf) = true := by
    rcases hcf with rfl | hloo
    · simp
    · simp [hloo]
  rw [CvResults.get_metric, if_pos hcond, hmain]
  dsimp only
  rw [CvResult.get_metric, if_neg (by
    show ¬ CvResult.n_samples _ = 1
    simp only [CvResult.n_samples]
    omega)]
  exact ⟨⟨_, rfl⟩, by simp⟩

theorem combined_get_metric_total_witness :
    (∃ s, (CvResults.mk [⟨"y", [Val.num 1], [Val.num 2], none, none, none⟩,
      ⟨"y", [Val.num 3], [Val.num 4], none, none, none⟩]).get_metric
        trivialPrims .R2 false = .ok s) ∧
    (CvResults.mk [⟨"y", [Val.num 1], [Val.num 2], none, none, none⟩,
      ⟨"y", [Val.num 3], [Val.num 4], none, none, none⟩]).get_metric
        trivialPrims .R2 false ≠ .error .InsufficientSamples :=
  combined_get_metric_total trivialPrims .R2
    (CvResults.mk [⟨"y", [Val.num 1], [Val.num 2], none, none, none⟩,
      ⟨"y", [Val.num 3], [Val.num 4], none, none, none⟩])
    (by decide) (by decide) (by decide) false (Or.inr (by decide))

/-- C6: fold construction reports ShapeMismatch, naming the first
mismatched field pair (in check order) and its lengths, whenever observed
and predicted lengths differ or a present optional field's length differs
from them; and every shape violation yields ShapeMismatch even when a
numeric constraint is violated as well — shape checks precede type
checks. -/
theorem make_shape_errors_first (k : String) (o p : List Val)
    (sd lc : Option (List Val)) (X : Option DataFrame) :
    (p.length ≠ o.length →
      CvResult.make k o p sd lc X =
        .error (.ShapeMismatch "observed" p.length o.length)) ∧
    (p.length = o.length → ∀ s, sd = some s → s.length ≠ p.length →
      CvResult.make k o p sd lc X =
        .error (.ShapeMismatch "standard_deviation" p.length s.length)) ∧
    (p.length = o.length → (∀ s ∈ sd, s.length = p.length) →
      ∀ s, lc = some s → s.length ≠ p.length →
      CvResult.make k o p sd lc X =
        .error (.ShapeMismatch "labcodes" p.length s.length)) ∧
    (p.length = o.length → (∀ s ∈ sd, s.length = p.length) →
      (∀ s ∈ lc, s.length = p.length) →
      ∀ df, X = some df → df.rows.length ≠ p.length →
      CvResult.make k o p sd lc X =
        .error (.ShapeMismatch "X" p.length df.rows.length)) ∧
    ((p.length ≠ o.length ∨ (∃ s ∈ sd, s.length ≠ p.length) ∨
      (∃ s ∈ lc, s.length ≠ p.length) ∨ (∃ df ∈ X, df.rows.length ≠ p.length)) →
      ∃ f lp lf, CvResult.make k o p sd lc X = .error (.ShapeMismatch f lp lf)) := by
  refine ⟨?_, ?_, ?_, ?_, ?_⟩
  · intro h1
    rw [CvResult.make, if_pos h1]
  · intro h1 s hs hlen2
    subst hs
    rw [CvResult.make, if_neg (by omega : ¬ p.length ≠ o.length),
      if_pos (show (some s).any (fun s => p.length ≠ s.length) = true by
        simp [Option.any]; omega)]
    simp
  · intro h1 hsd s hs hlen2
    subst hs
    rw [CvResult.make, if_neg (by omega : ¬ p.length ≠ o.length),
      if_neg (show ¬ sd.any (fun s => p.length ≠ s.length) = true by
        rcases sd with _ | s0
        · simp [Option.any]
        · have := hsd s0 (by simp)
          simp [Option.any]
          omega),
      if_pos (show (some s).any (fun s => p.length ≠ s.length) = true by
        simp [Option.any]; omega)]
    simp
  · intro h1 hsd hlc df hdf hlen2
    subst hdf
    rw [CvResult.make, if_neg (by omega : ¬ p.length ≠ o.length),
      if_neg (show ¬ sd.any (fun s => p.length ≠ s.length) = true by
        rcases sd with _ | s0
        · simp [Option.any]
        · have := hsd s0 (by simp)
          simp [Option.any]
          omega),
      if_neg (show ¬ lc.any (fun s => p.length ≠ s.length) = true by
        rcases lc with _ | s0
        · simp [Option.any]
        · have := hlc s0 (by simp)
          simp [Option.any]
          omega),
      if_pos (show (some df).any (fun d => p.length ≠ d.rows.length) = true by
        simp [Option.any]; omega)]
    simp
  · intro hviol
    rw [CvResult.make]
    by_cases h1 : p.length ≠ o.length
    · exact ⟨"observed", p.length, o.length, by rw [if_pos h1]⟩
    · rw [if_neg h1]
      by_cases h2 : sd.any (fun s => p.length ≠ s.length) = true
      · exact ⟨"standard_deviation", p.length, (sd.getD []).length, by rw [if_pos h2]⟩
      · rw [if_neg h2]
        by_cases h3 : lc.any (fun s => p.length ≠ s.length) = true
        · exact ⟨"labcodes", p.length, (lc.getD []).length, by rw [if_pos h3]⟩
        · rw [if_neg h3]
          by_cases h4 : X.any (fun df => p.length ≠ df.rows.length) = true
          · exact ⟨"X", p.length, (X.getD ⟨[], []⟩).rows.length, by rw [if_pos h4]⟩
          · exfalso
            push_neg at h1
            rcases hviol with hv | ⟨s, hs, hv⟩ | ⟨s, hs, hv⟩ | ⟨df, hdf, hv⟩
            · exact hv h1
            · rcases sd with _ | s0
              · simp at hs
              · simp at hs
                subst hs
                simp [Option.any] at h2
                omega
            · rcases lc with _ | s0
              · simp at hs
              · simp at hs
                subst hs
                simp [Option.any] at h3
                omega
            · rcases X with _ | df0
              · simp at hdf
              · simp at hdf
                subst hdf
                simp [Option.any] at h4
                omega

theorem make_shape_errors_first_witness :
    (CvResult.make "y" [Val.num 1] [] none none none =
      .error (.ShapeMismatch "observed" 0 1)) ∧
    (CvResult.make "y" [Val.num 1] [Val.num 2] (some []) none none =
      .error (.ShapeMismatch "standard_deviation" 1 0)) ∧
    (∃ f lp lf, CvResult.make "y" [Val.text "bad"] [] none none none =
      .error (.ShapeMismatch f lp lf)) := by
  refine ⟨?_, ?_, ?_⟩
  · exact (make_shape_errors_first "y" [Val.num 1] [] none none none).1 (by decide)
  · exact (make_shape_errors_first "y" [Val.num 1] [Val.num 2]
      (some []) none none).2.1 (by decide) [] rfl (by decide)
  · exact (make_shape_errors_first "y" [Val.text "bad"] [] none none
      none).2.2.2.2 (Or.inl (by decide))

/-- The head of a non-empty list is a member. -/
theorem headI_mem {v : List CvResult} (hv : v ≠ []) : v.headI ∈ v := by
  cases v with
  | nil => exact absurd rfl hv
  | cons a t => exact List.mem_cons_self a t

/-- A field (probed through a Boolean accessor) is present on some folds
and absent on others. -/
def presenceMismatchBy (get : CvResult → Bool) (v : List CvResult) : Prop :=
  (∃ r ∈ v, get r = true) ∧ (∃ r ∈ v, get r = false)

instance (get : CvResult → Bool) (v : List CvResult) :
    Decidable (presenceMismatchBy get v) := by
  unfold presenceMismatchBy
  infer_instance

/-- The validator's headI-anchored presence probe is exactly a presence
mismatch. -/
theorem any_ne_headI_iff {v : List CvResult} (hv : v ≠ []) (get : CvResult → Bool) :
    (v.any (fun i => get i ≠ get v.headI)) = true ↔ presenceMismatchBy get v := by
  simp only [List.any_eq_true, decide_eq_true_eq]
  constructor
  · rintro ⟨i, hi, hne⟩
    cases hgv : get v.headI with
    | true =>
      refine ⟨⟨v.headI, headI_mem hv, hgv⟩, ⟨i, hi, ?_⟩⟩
      rw [hgv] at hne
      simpa using hne
    | false =>
      refine ⟨⟨i, hi, ?_⟩, ⟨v.headI, headI_mem hv, hgv⟩⟩
      rw [hgv] at hne
      simpa using hne
  · rintro ⟨⟨rt, hrt, ht⟩, ⟨rf, hrf, hf⟩⟩
    cases hgv : get v.headI with
    | true => exact ⟨rf, hrf, by simp [hf, hgv]⟩
    | false => exact ⟨rt, hrt, by simp [ht, hgv]⟩

/-- Under no presence mismatch, presence on the head forces presence
everywhere. -/
theorem all_of_not_mismatch {v : List CvResult} (hv : v ≠ [])
    (get : CvResult → Bool) (hno : ¬ presenceMismatchBy get v)
    (h0 : get v.headI = true) : ∀ r ∈ v, get r = true := by
  intro r hr
  by_contra hf
  exact hno ⟨⟨v.headI, headI_mem hv, h0⟩, ⟨r, hr, by simpa using hf⟩⟩

/-- C5: the collection validator fails exactly as specified —
EmptyCollection below two folds; KeyMismatch when some fold's key differs
from the first fold's; FieldPresenceMismatch (naming the first affected
field in the order standard_deviation, labcodes, X) when a field is
present on some folds and absent on others; ColumnMismatch when two
folds' X column names differ as multisets (order-insensitive comparison);
success when none of these hold. -/
theorem validate_results_characterization (v : List CvResult) :
    (v.length < 2 → CvResults.validate_results v = .error .EmptyCollection) ∧
    (2 ≤ v.length → (∃ r ∈ v, r.key ≠ v.headI.key) →
      CvResults.validate_results v = .error .KeyMismatch) ∧
    (2 ≤ v.length → (∀ r ∈ v, r.key = v.headI.key) →
      presenceMismatchBy (fun r => r.standard_deviation.isSome) v →
      CvResults.validate_results v =
        .error (.FieldPresenceMismatch "standard_deviation")) ∧
    (2 ≤ v.length → (∀ r ∈ v, r.key = v.headI.key) →
      ¬ presenceMismatchBy (fun r => r.standard_deviation.isSome) v →
      presenceMismatchBy (fun r => r.labcodes.isSome) v →
      CvResults.validate_results v = .error (.FieldPresenceMismatch "labcodes")) ∧
    (2 ≤ v.length → (∀ r ∈ v, r.key = v.headI.key) →
      ¬ presenceMismatchBy (fun r => r.standard_deviation.isSome) v →
      ¬ presenceMismatchBy (fun r => r.labcodes.isSome) v →
      presenceMismatchBy (fun r => r.X.isSome) v →
      CvResults.validate_results v = .error (.FieldPresenceMismatch "X")) ∧
    (2 ≤ v.length → (∀ r ∈ v, r.key = v.headI.key) →
      ¬ presenceMismatchBy (fun r => r.standard_deviation.isSome) v →
      ¬ presenceMismatchBy (fun r => r.labcodes.isSome) v →
      ¬ presenceMismatchBy (fun r => r.X.isSome) v →
      (∃ r1 ∈ v, ∃ r2 ∈ v, ∃ X1 ∈ r1.X, ∃ X2 ∈ r2.X,
        ¬ X1.columns.Perm X2.columns) →
      CvResults.validate_results v = .error .ColumnMismatch) ∧
    (2 ≤ v.length → (∀ r ∈ v, r.key = v.headI.key) →
      ¬ presenceMismatchBy (fun r => r.standard_deviation.isSome) v →
      ¬ presenceMismatchBy (fun r => r.labcodes.isSome) v →
      ¬ presenceMismatchBy (fun r => r.X.isSome) v →
      (∀ r1 ∈ v, ∀ r2 ∈ v, ∀ X1 ∈ r1.X, ∀ X2 ∈ r2.X,
        X1.columns.Perm X2.columns) →
      CvResults.validate_results v = .ok v) := by
  refine ⟨?_, ?_, ?_, ?_, ?_, ?_, ?_⟩
  · intro hlen
    rw [CvResults.validate_results, if_pos (by omega)]
  · intro hlen hkey
    rw [CvResults.validate_results, if_neg (by omega),
      if_pos (by simpa [List.any_eq_true] using hkey)]
  · intro hlen hkeys hsd
    have hv : v ≠ [] := by intro h; rw [h] at hlen; simp at hlen
    rw [CvResults.validate_results, if_neg (by omega),
      if_neg (by simp only [List.any_eq_true, decide_eq_true_eq, not_exists, not_and,
        not_not]; exact hkeys),
      if_pos ((any_ne_headI_iff hv _).mpr hsd)]
  · intro hlen hkeys hsd hlc
    have hv : v ≠ [] := by intro h; rw [h] at hlen; simp at hlen
    rw [CvResults.validate_results, if_neg (by omega),
      if_neg (by simp only [List.any_eq_true, decide_eq_true_eq, not_exists, not_and,
        not_not]; exact hkeys),
      if_neg (fun h => hsd ((any_ne_headI_iff hv _).mp h)),
      if_pos ((any_ne_headI_iff hv _).mpr hlc)]
  · intro hlen hkeys hsd hlc hX
    have hv : v ≠ [] := by intro h; rw [h] at hlen; simp at hlen
    rw [CvResults.validate_results, if_neg (by omega),
      if_neg (by simp only [List.any_eq_true, decide_eq_true_eq, not_exists, not_and,
        not_not]; exact hkeys),
      if_neg (fun h => hsd ((any_ne_headI_iff hv _).mp h)),
      if_neg (fun h => hlc ((any_ne_headI_iff hv _).mp h)),
      if_pos ((any_ne_headI_iff hv _).mpr hX)]
  · intro hlen hkeys hsd hlc hXp hpair
    have hv : v ≠ [] := by intro h; rw [h] at hlen; simp at hlen
    rw [CvResults.validate_results, if_neg (by omega),
      if_neg (by simp only [List.any_eq_true, decide_eq_true_eq, not_exists, not_and,
        not_not]; exact hkeys),
      if_neg (fun h => hsd ((any_ne_headI_iff hv _).mp h)),
      if_neg (fun h => hlc ((any_ne_headI_iff hv _).mp h)),
      if_neg (fun h => hXp ((any_ne_headI_iff hv _).mp h))]
    obtain ⟨r1, hr1, r2, hr2, X1, hX1, X2, hX2, hnp⟩ := hpair
    rw [Option.mem_def] at hX1 hX2
    rcases hX0 : v.headI.X with _ | X0
    · exfalso
      have h1s : r1.X.isSome = true := by rw [hX1]; rfl
      have h0s : v.headI.X.isSome = false := by rw [hX0]; rfl
      exact hXp ⟨⟨r1, hr1, h1s⟩, ⟨v.headI, headI_mem hv, h0s⟩⟩
    · dsimp only
      rw [if_pos ?hcond]
      case hcond =>
        simp only [List.any_eq_true, decide_eq_true_eq]
        by_cases hp1 : X1.columns.Perm X0.columns
        · refine ⟨r2, hr2, ?_⟩
          rw [hX2, Option.getD_some]
          intro hsort
          have hp2 : X2.columns.Perm X0.columns := (sortStr_eq_iff_perm _ _).mp hsort
          exact hnp (hp1.trans hp2.symm)
        · refine ⟨r1, hr1, ?_⟩
          rw [hX1, Option.getD_some]
          intro hsort
          exact hp1 ((sortStr_eq_iff_perm _ _).mp hsort)
  · intro hlen hkeys hsd hlc hXp hcols
    have hv : v ≠ [] := by intro h; rw [h] at hlen; simp at hlen
    rw [CvResults.validate_results, if_neg (by omega),
      if_neg (by simp only [List.any_eq_true, decide_eq_true_eq, not_exists, not_and,
        not_not]; exact hkeys),
      if_neg (fun h => hsd ((any_ne_headI_iff hv _).mp h)),
      if_neg (fun h => hlc ((any_ne_headI_iff hv _).mp h)),
      if_neg (fun h => hXp ((any_ne_headI_iff hv _).mp h))]
    rcases hX0 : v.headI.X with _ | X0
    · rfl
    · dsimp only
      rw [if_neg ?hcond2]
      case hcond2 =>
        simp only [List.any_eq_true, decide_eq_true_eq, not_exists, not_and, not_not]
        intro r hr
        have h0s : v.headI.X.isSome = true := by rw [hX0]; rfl
        have hrs : r.X.isSome = true :=
          all_of_not_mismatch hv (fun r => r.X.isSome) hXp h0s r hr
        rcases hXr : r.X with _ | Xr
        · rw [hXr] at hrs; cases hrs
        · rw [Option.getD_some]
          exact (sortStr_eq_iff_perm _ _).mpr
            (hcols r hr v.headI (headI_mem hv) Xr (by rw [hXr]; rfl) X0
              (by rw [hX0]; rfl))

theorem validate_results_characterization_witness :
    (CvResults.validate_results [⟨"y", [Val.num 1], [Val.num 2], none, none, none⟩] =
      .error .EmptyCollection) ∧
    (CvResults.validate_results [⟨"y", [Val.num 1], [Val.num 2], none, none, none⟩,
        ⟨"z", [Val.num 1], [Val.num 2], none, none, none⟩] = .error .KeyMismatch) ∧
    (CvResults.validate_results [⟨"y", [Val.num 1], [Val.num 2], none, none, none⟩,
        ⟨"y", [Val.num 1], [Val.num 2], some [Val.num 3], none, none⟩] =
      .error (.FieldPresenceMismatch "standard_deviation")) ∧
    (CvResults.validate_results [⟨"y", [Val.num 1], [Val.num 2], none, none, none⟩,
        ⟨"y", [Val.num 1], [Val.num 2], none, some [Val.text "a"], none⟩] =
      .error (.FieldPresenceMismatch "labcodes")) ∧
    (CvResults.validate_results [⟨"y", [Val.num 1], [Val.num 2], none, none, none⟩,
        ⟨"y", [Val.num 1], [Val.num 2], none, none,
          some ⟨["a", "b"], [[Val.num 1, Val.num 2]]⟩⟩] =
      .error (.FieldPresenceMismatch "X")) ∧
    (CvResults.validate_results
        [⟨"y", [Val.num 1], [Val.num 2], none, none,
          some ⟨["a", "b"], [[Val.num 1, Val.num 2]]⟩⟩,
         ⟨"y", [Val.num 1], [Val.num 2], none, none,
          some ⟨["a", "b", "c"], [[Val.num 1, Val.num 2, Val.num 3]]⟩⟩] =
      .error .ColumnMismatch) ∧
    (CvResults.validate_results
        [⟨"y", [Val.num 1], [Val.num 2], none, none,
          some ⟨["a", "b"], [[Val.num 1, Val.num 2]]⟩⟩,
         ⟨"y", [Val.num 1], [Val.num 2], none, none,
          some ⟨["b", "a"], [[Val.num 2, Val.num 1]]⟩⟩] =
      .ok [⟨"y", [Val.num 1], [Val.num 2], none, none,
          some ⟨["a", "b"], [[Val.num 1, Val.num 2]]⟩⟩,
         ⟨"y", [Val.num 1], [Val.num 2], none, none,
          some ⟨["b", "a"], [[Val.num 2, Val.num 1]]⟩⟩]) := by
  refine ⟨?_, ?_, ?_, ?_, ?_, ?_, ?_⟩
  · exact (validate_results_characterization
      [⟨"y", [Val.num 1], [Val.num 2], none, none, none⟩]).1 (by decide)
  · exact (validate_results_characterization
      [⟨"y", [Val.num 1], [Val.num 2], none, none, none⟩,
       ⟨"z", [Val.num 1], [Val.num 2], none, none, none⟩]).2.1 (by decide) (by decide)
  · exact (validate_results_characterization
      [⟨"y", [Val.num 1], [Val.num 2], none, none, none⟩,
       ⟨"y", [Val.num 1], [Val.num 2], some [Val.num 3], none, none⟩]).2.2.1
      (by decide) (by decide) (by decide)
  · exact (validate_results_characterization
      [⟨"y", [Val.num 1], [Val.num 2], none, none, none⟩,
       ⟨"y", [Val.num 1], [Val.num 2], none, some [Val.text "a"], none⟩]).2.2.2.1
      (by decide) (by decide) (by decide) (by decide)
  · exact (validate_results_characterization
      [⟨"y", [Val.num 1], [Val.num 2], none, none, none⟩,
       ⟨"y", [Val.num 1], [Val.num 2], none, none,
         some ⟨["a", "b"], [[Val.num 1, Val.num 2]]⟩⟩]).2.2.2.2.1
      (by decide) (by decide) (by decide) (by decide) (by decide)
  · exact (validate_results_characterization
      [⟨"y", [Val.num 1], [Val.num 2], none, none,
         some ⟨["a", "b"], [[Val.num 1, Val.num 2]]⟩⟩,
       ⟨"y", [Val.num 1], [Val.num 2], none, none,
         some ⟨["a", "b", "c"], [[Val.num 1, Val.num 2, Val.num 3]]⟩⟩]).2.2.2.2.2.1
      (by decide) (by decide) (by decide) (by decide) (by decide) (by decide)
  · exact (validate_results_characterization
      [⟨"y", [Val.num 1], [Val.num 2], none, none,
         some ⟨["a", "b"], [[Val.num 1, Val.num 2]]⟩⟩,
       ⟨"y", [Val.num 1], [Val.num 2], none, none,
         some ⟨["b", "a"], [[Val.num 2, Val.num 1]]⟩⟩]).2.2.2.2.2.2
      (by decide) (by decide) (by decide) (by decide) (by decide) (by decide)

end Bofire
